import Mathlib

/-!
Verification of the slot-configuration / asset-provisioning / visibility core of
`oto_desktop` (src/src-tauri/src/main.rs), via a shallow embedding in Lean.

The embedding models:
  * the slot store (`merge_character_slots`, `apply_slot_url_defaults`,
    `load_character_slots`, `save_character_slots`, `save_character_slot`,
    `migrate_or_default_character_slots`),
  * the structure normalizer (`find_model_file_recursive`,
    `reorganize_flat_model`, `detect_model_structure`, `find_texture_folder`)
    over an inductive directory-tree type,
  * the provisioning orchestrator (`ensure_model_ready_for_character`),
    parameterized by a network oracle and instrumented with a download counter,
  * the visibility state machine (`show_overlay_for_character`,
    `spawn_or_focus_next_character`).

Filesystem state is explicit: the parsed slots file, the legacy model-config
file, the primary model-config file, and the set of files on disk under the
per-character models root (as `/`-joined path strings).  I/O-level read/write
errors and zip-level byte handling are outside the state model; a download is
an `Except`-valued oracle producing the extracted directory tree.
-/

namespace Oto

/-! ### String primitives

Executable models of the Rust `str` operations the program uses
(`trim`, `is_empty`, `ends_with`, `trim_end_matches`), written by structural
recursion over the character list so that every proof obligation on concrete
strings evaluates inside the kernel. -/

/-- Rust `str::trim`: drop leading and trailing whitespace. -/
def strTrim (s : String) : String :=
  ⟨((s.data.dropWhile Char.isWhitespace).reverse.dropWhile Char.isWhitespace).reverse⟩

/-- Rust `str::is_empty`. -/
def strIsEmpty (s : String) : Bool :=
  s.data.isEmpty

/-- Suffix test on character lists: the last `suffix.length` characters equal
`suffix`. -/
def listEndsWith (cs suffix : List Char) : Bool :=
  cs.drop (cs.length - suffix.length) == suffix

/-- Rust `str::ends_with` for a string pattern. -/
def strEndsWith (s pat : String) : Bool :=
  listEndsWith s.data pat.data

/-- One suffix strip: drop the last `suffix.length` characters. -/
def stripOnce (cs suffix : List Char) : List Char :=
  cs.take (cs.length - suffix.length)

/-- Fuelled worker for `trim_end_matches`; the fuel `s.length` bounds the
number of strips, which each remove at least one character for a non-empty
pattern. -/
def trimEndAux (suffix : List Char) : Nat → List Char → List Char
  | 0, cs => cs
  | fuel + 1, cs =>
      if ¬ suffix.isEmpty ∧ listEndsWith cs suffix then
        trimEndAux suffix fuel (stripOnce cs suffix)
      else cs

/-- Rust `str::trim_end_matches` for a string pattern: repeatedly remove the
suffix while it matches. -/
def trim_end_matches (s pat : String) : String :=
  ⟨trimEndAux pat.data s.data.length s.data⟩

/-! ### Constants (main.rs lines 201-213, paths.rs line 6) -/

def CHARACTER_IDS : List String := ["character_1", "character_2", "character_3"]

def PRIMARY_CHARACTER_ID : String := "character_1"

def SLOT_1_MODEL_URL : String := "https://storage.googleapis.com/oto_bucket/live2d/Hiyori.zip"

def SLOT_2_MODEL_URL : String := "https://storage.googleapis.com/oto_bucket/live2d/cat3.zip"

def SLOT_3_MODEL_URL : String := "https://storage.googleapis.com/oto_bucket/live2d/steve.zip"

def DEFAULT_MODEL_URL : String := "https://storage.googleapis.com/oto_bucket/live2d/Hiyori1.zip"

def slot_default_url (slot_id : String) : String :=
  if slot_id = "character_2" then SLOT_2_MODEL_URL
  else if slot_id = "character_3" then SLOT_3_MODEL_URL
  else SLOT_1_MODEL_URL

def is_valid_character_id (character_id : String) : Bool :=
  CHARACTER_IDS.contains character_id

/-! ### Data model (main.rs lines 126-143, 215-241) -/

structure ModelConfig where
  url : String
  folder : String
  model_file : String
  texture_folder : Option String
deriving Repr, DecidableEq

/-- `impl Default for ModelConfig` (main.rs lines 134-143). -/
def ModelConfig.defaultConfig : ModelConfig :=
  { url := DEFAULT_MODEL_URL
    folder := "Hiyori"
    model_file := "Hiyori.model3.json"
    texture_folder := some "Hiyori.2048" }

structure CharacterSlotConfig where
  slot_id : String
  model_url : String
  enabled : Bool
  folder : Option String
  model_file : Option String
  texture_folder : Option String
deriving Repr, DecidableEq

/-- `CharacterSlotConfig::default_with_id` (main.rs lines 229-240). -/
def default_with_id (slot_id : String) : CharacterSlotConfig :=
  { slot_id := slot_id
    model_url := slot_default_url slot_id
    enabled := true
    folder := if slot_id = PRIMARY_CHARACTER_ID then some ModelConfig.defaultConfig.folder else none
    model_file := if slot_id = PRIMARY_CHARACTER_ID then some ModelConfig.defaultConfig.model_file else none
    texture_folder := if slot_id = PRIMARY_CHARACTER_ID then ModelConfig.defaultConfig.texture_folder else none }

/-- Body of the `for` loop of `apply_slot_url_defaults` (main.rs lines 243-250):
backfill a blank URL with the per-slot default, then unconditionally set
`enabled = true`. -/
def applyUrlDefault (slot : CharacterSlotConfig) : CharacterSlotConfig :=
  { slot with
    model_url :=
      if strIsEmpty (strTrim slot.model_url) then slot_default_url slot.slot_id
      else slot.model_url
    enabled := true }

/-- `apply_slot_url_defaults` (main.rs lines 243-250). -/
def apply_slot_url_defaults (slots : List CharacterSlotConfig) : List CharacterSlotConfig :=
  slots.map applyUrlDefault

/-- `slots.iter().find(|s| s.slot_id == id)` as used throughout main.rs. -/
def findSlot (slots : List CharacterSlotConfig) (slot_id : String) : Option CharacterSlotConfig :=
  slots.find? (fun s => s.slot_id == slot_id)

/-- `merge_character_slots` (main.rs lines 252-262). -/
def merge_character_slots (slots : List CharacterSlotConfig) : List CharacterSlotConfig :=
  CHARACTER_IDS.map (fun slot_id => (findSlot slots slot_id).getD (default_with_id slot_id))

/-- The composite transformation `load_character_slots` applies to a parsed
slots file before persisting and returning it (main.rs lines 271-272). -/
def canonicalSlots (slots : List CharacterSlotConfig) : List CharacterSlotConfig :=
  apply_slot_url_defaults (merge_character_slots slots)

/-- `slots.iter_mut().find(p)` followed by a mutation of the found record:
update the first matching element, leave the rest unchanged. -/
def updateFirst (p : CharacterSlotConfig → Bool) (f : CharacterSlotConfig → CharacterSlotConfig) :
    List CharacterSlotConfig → List CharacterSlotConfig
  | [] => []
  | s :: rest => if p s then f s :: rest else s :: updateFirst p f rest

/-! ### Explicit system state

`slotsFile` is the parsed content of `.characters.json` (`none` = file absent),
`legacyFile` the parsed legacy `.model_config.json` (`none` = absent or
unparseable, matching the best-effort `if let Ok(..)` read in
`migrate_or_default_character_slots`), `modelConfigFile` the primary
model-config written by `save_model_config`, and `disk` the set of files under
the models root, each as a `/`-joined path beginning with the character id. -/

structure SysState where
  slotsFile : Option (List CharacterSlotConfig)
  legacyFile : Option ModelConfig
  modelConfigFile : Option ModelConfig
  disk : List String
deriving Repr, DecidableEq

/-- `save_character_slots` (main.rs lines 282-291): re-merge, then write. -/
def save_character_slots (slots : List CharacterSlotConfig) (st : SysState) : SysState :=
  { st with slotsFile := some (merge_character_slots slots) }

/-- `migrate_or_default_character_slots` (main.rs lines 293-311). -/
def migrate_or_default_character_slots (st : SysState) : List CharacterSlotConfig :=
  let slots := merge_character_slots []
  let slots :=
    match st.legacyFile with
    | some legacy =>
        updateFirst (fun s => s.slot_id == PRIMARY_CHARACTER_ID)
          (fun primary =>
            { primary with
              model_url := legacy.url
              enabled := true
              folder := some legacy.folder
              model_file := some legacy.model_file
              texture_folder := legacy.texture_folder }) slots
    | none => slots
  apply_slot_url_defaults slots

/-- `load_character_slots` (main.rs lines 264-280).  File-read and JSON-parse
errors are not representable in the state model (the file content is stored
parsed), so the function is total here; every other step is modeled. -/
def load_character_slots (st : SysState) : List CharacterSlotConfig × SysState :=
  match st.slotsFile with
  | some parsed =>
      let merged := canonicalSlots parsed
      (merged, save_character_slots merged st)
  | none =>
      let slots := migrate_or_default_character_slots st
      (slots, save_character_slots slots st)

/-- Body of the `iter_mut().find(..)` mutation inside `save_character_slot`
(main.rs lines 2463-2475): set the trimmed URL, force `enabled` for the
primary slot, and clear the asset fields when the slot ends up disabled. -/
def saveSlotMutation (model_url : String) (enabled : Bool)
    (slot : CharacterSlotConfig) : CharacterSlotConfig :=
  let slot := { slot with model_url := strTrim model_url }
  let slot :=
    { slot with enabled := if slot.slot_id == PRIMARY_CHARACTER_ID then true else enabled }
  if ¬ slot.enabled then
    { slot with folder := none, model_file := none, texture_folder := none }
  else slot

/-- Tauri command `save_character_slot` (main.rs lines 2450-2477). -/
def save_character_slot (slot_id model_url : String) (enabled : Bool) (st : SysState) :
    Except String Unit × SysState :=
  if ¬ is_valid_character_id slot_id then (.error "Invalid slot_id", st)
  else if enabled ∧ strIsEmpty (strTrim model_url) then
    (.error "Enabled slot must have a model URL", st)
  else if ¬ strIsEmpty (strTrim model_url) ∧ ¬ strEndsWith (strTrim model_url) ".zip" then
    (.error "Model URL must be a .zip file", st)
  else
    let (slots, st1) := load_character_slots st
    let slots :=
      updateFirst (fun s => s.slot_id == slot_id) (saveSlotMutation model_url enabled) slots
    (.ok (), save_character_slots slots st1)

/-! ### Directory trees and the structure normalizer (main.rs lines 483-623)

A directory is represented by its listing: an ordered list of entries, each a
file or a subdirectory with its own listing.  The order models the
`read_dir` iteration order. -/

inductive Entry where
  | file : String → Entry
  | dir : String → List Entry → Entry
deriving Repr

def Entry.name : Entry → String
  | .file n => n
  | .dir n _ => n

/-- `MAX_MODEL_SEARCH_DEPTH` (main.rs line 484). -/
def MAX_MODEL_SEARCH_DEPTH : Nat := 3

/-- First pass of `find_model_file_recursive` and of `detect_model_structure`:
the first plain file at this level whose name ends in `.model3.json`. -/
def firstModelFile : List Entry → Option String
  | [] => none
  | .file n :: rest => if strEndsWith n ".model3.json" then some n else firstModelFile rest
  | .dir _ _ :: rest => firstModelFile rest

/-- `find_model_file_recursive` (main.rs lines 487-515).  A directory is given
by its path relative to the extraction root together with its listing; the
function returns the relative path of the directory containing the first
match, and the matched file name.  Files at a level are checked before any
subdirectory is descended into (two passes over the same listing), descent
happens in listing order with one less depth budget, and the first hit wins —
later subdirectories are never examined. -/
def find_model_file_recursive : Nat → List String → List Entry → Option (List String × String)
  | 0, _, _ => none
  | max_depth + 1, path, entries =>
      match firstModelFile entries with
      | some name => some (path, name)
      | none =>
          entries.findSome? (fun e =>
            match e with
            | .file _ => none
            | .dir n sub => find_model_file_recursive max_depth (path ++ [n]) sub)

/-- `find_texture_folder` (main.rs lines 593-623): first a pattern pass over
subdirectory names, then a fallback returning the first subdirectory with a
child whose *name* ends in `.png` (the source checks `file_name()` only, so a
subdirectory named `x.png` also counts — modeled faithfully). -/
def find_texture_folder (entries : List Entry) : Option String :=
  match entries.findSome? (fun e =>
    match e with
    | .dir n _ =>
        if strEndsWith n ".2048" ∨ strEndsWith n ".4096" ∨ strEndsWith n ".1024" ∨
            n == "textures" then some n
        else none
    | .file _ => none) with
  | some n => some n
  | none =>
      entries.findSome? (fun e =>
        match e with
        | .dir n sub => if sub.any (fun c => strEndsWith c.name ".png") then some n else none
        | .file _ => none)

/-- `reorganize_flat_model` (main.rs lines 519-546): create a subfolder named
after the descriptor minus its suffix and move every root entry except that
subfolder into it.  A pre-existing directory with the target name keeps its
children (`create_dir_all` succeeds and the directory itself is skipped); a
pre-existing *file* with that name makes `create_dir_all` fail, modeled as the
error branch.  `rename` collisions inside a pre-existing target directory are
not modeled (sibling names in a listing are unique in every property proved
here). -/
def reorganize_flat_model (entries : List Entry) (model_filename : String) :
    Except String (List Entry × String) :=
  let model_name := trim_end_matches model_filename ".model3.json"
  if entries.any (fun e =>
      match e with
      | .file n => n == model_name
      | .dir _ _ => false) then
    .error "Failed to create model folder"
  else
    let existing := entries.findSome? (fun e =>
      match e with
      | .dir n sub => if n == model_name then some sub else none
      | .file _ => none)
    let moved := entries.filter (fun e => ¬ e.name == model_name)
    .ok ([.dir model_name (existing.getD [] ++ moved)], model_name)

/-- Resolve a relative path to the listing of the directory it denotes. -/
def getSubdir : List Entry → List String → Option (List Entry)
  | entries, [] => some entries
  | entries, n :: rest =>
      match entries.findSome? (fun e =>
        match e with
        | .dir m sub => if m == n then some sub else none
        | .file _ => none) with
      | some sub => getSubdir sub rest
      | none => none

/-- `/`-join of path components, mirroring `Path::join` plus
`to_string_lossy` on the relative path. -/
def joinPath : List String → String
  | [] => ""
  | [p] => p
  | p :: q :: rest => p ++ "/" ++ joinPath (q :: rest)

/-- `detect_model_structure` (main.rs lines 549-590).  Returns the relative
model folder, the descriptor file name, the optional texture folder, and the
resulting tree of the extraction root (mutated by the flat reorganization). -/
def detect_model_structure (entries : List Entry) :
    Except String (String × String × Option String × List Entry) :=
  match firstModelFile entries with
  | some name =>
      match reorganize_flat_model entries name with
      | .error e => .error e
      | .ok (newTree, model_name) =>
          let children := (getSubdir newTree [model_name]).getD []
          .ok (model_name, name, find_texture_folder children, newTree)
  | none =>
      match entries.findSome? (fun e =>
        match e with
        | .dir n sub => find_model_file_recursive MAX_MODEL_SEARCH_DEPTH [n] sub
        | .file _ => none) with
      | some (pathComps, model_file) =>
          let tex :=
            match getSubdir entries pathComps with
            | some sub => find_texture_folder sub
            | none => none
          .ok (joinPath pathComps, model_file, tex, entries)
      | none => .error "No Live2D model found in extracted files"

/-- A model file exists in the tree at depth at most `d` (depth 1 = directly
in the listing). -/
def hasModelWithin : List Entry → Nat → Bool
  | _, 0 => false
  | entries, d + 1 =>
      entries.any (fun e =>
        match e with
        | .file n => strEndsWith n ".model3.json"
        | .dir _ sub => hasModelWithin sub d)

/-- A model file exists in the tree at depth exactly `d`. -/
def hasModelAtDepth : List Entry → Nat → Bool
  | _, 0 => false
  | entries, 1 =>
      entries.any (fun e =>
        match e with
        | .file n => strEndsWith n ".model3.json"
        | .dir _ _ => false)
  | entries, d + 2 =>
      entries.any (fun e =>
        match e with
        | .file _ => false
        | .dir _ sub => hasModelAtDepth sub (d + 1))

/-! ### Visibility state machine (main.rs lines 2050-2055, 2133-2162, 2169-2250)

The `overlay_visible` HashMap is modeled as a total function (absent keys read
as `false`, matching `get(..).unwrap_or(&false)`), `active_character_id` as a
plain string. -/

structure VisState where
  overlay_visible : String → Bool
  active_character_id : String

/-- `AppState::default()`: empty visibility map and empty active id; every
slot starts hidden. -/
def initVisState : VisState := ⟨fun _ => false, ""⟩

/-- `set_overlay_visible_for_character` (main.rs lines 2142-2152). -/
def set_overlay_visible_for_character (vs : VisState) (character_id : String)
    (visible : Bool) : VisState :=
  { vs with
    overlay_visible := fun s => if s == character_id then visible else vs.overlay_visible s }

/-- `show_overlay_for_character` (main.rs lines 2169-2225): for every *other*
fixed slot, mark it hidden first; then mark the target visible and set it as
the active slot.  Window handling and event emission are display-layer
effects outside the model. -/
def show_overlay_for_character (vs : VisState) (character_id : String) : VisState :=
  let vs := CHARACTER_IDS.foldl
    (fun v other_id =>
      if other_id == character_id then v
      else set_overlay_visible_for_character v other_id false) vs
  let vs := set_overlay_visible_for_character vs character_id true
  { vs with active_character_id := character_id }

/-- `hide_overlay_for_character` (main.rs lines 2227-2250): mark the slot
hidden unconditionally; `active_character_id` is not changed. -/
def hide_overlay_for_character (vs : VisState) (character_id : String) : VisState :=
  set_overlay_visible_for_character vs character_id false

/-- Number of fixed slots recorded visible in the overlay map. -/
def countVisible (vs : VisState) : Nat :=
  (CHARACTER_IDS.filter (fun slot_id => vs.overlay_visible slot_id)).length

/-! ### Provisioning orchestrator (main.rs lines 176-199, 625-691)

The network download + zip extraction (`download_and_extract_zip`) is an
`Except`-valued oracle producing the extracted directory tree; the `downloads`
field counts how many network fetches an invocation performed. -/

mutual

/-- Paths of all files within one entry, relative to the enclosing root. -/
def entryPaths : Entry → List String
  | .file n => [n]
  | .dir n sub => (entriesPaths sub).map (fun p => n ++ "/" ++ p)

/-- Paths of all files in a listing, in listing order. -/
def entriesPaths : List Entry → List String
  | [] => []
  | e :: rest => entryPaths e ++ entriesPaths rest

end

/-- The disk paths of a character's extracted tree, prefixed by the character
id (the per-character models root `models/<character_id>`). -/
def treeDiskPaths (character_id : String) (entries : List Entry) : List String :=
  (entriesPaths entries).map (fun p => character_id ++ "/" ++ p)

/-- `remove_dir_all` on a character's private models root: drop every file
under it. -/
def wipeCharacter (disk : List String) (character_id : String) : List String :=
  disk.filter (fun p => ¬ (character_id ++ "/").data.isPrefixOf p.data)

/-- `save_model_config_for_character` (main.rs lines 176-199): update the
slot from the config (forcing `enabled`), persist, and for the primary slot
also write the legacy model-config file. -/
def save_model_config_for_character (character_id : String) (config : ModelConfig)
    (st : SysState) : SysState :=
  let (slots, st1) := load_character_slots st
  let slots := updateFirst (fun s => s.slot_id == character_id)
    (fun slot =>
      { slot with
        model_url := config.url
        folder := some config.folder
        model_file := some config.model_file
        texture_folder := config.texture_folder
        enabled := true }) slots
  let st2 := save_character_slots slots st1
  if character_id == PRIMARY_CHARACTER_ID then
    { st2 with modelConfigFile := some config }
  else st2

structure EnsureResult where
  result : Except String ModelConfig
  st : SysState
  downloads : Nat

/-- The fast-path existence check of `ensure_model_ready_for_character`
(main.rs lines 647-650): both asset fields recorded and the descriptor file
present on disk under the slot's private root. -/
def hasConfiguredModel (st1 : SysState) (character_id : String)
    (slot : CharacterSlotConfig) : Bool :=
  match slot.folder, slot.model_file with
  | some folder, some model_file =>
      st1.disk.contains (character_id ++ "/" ++ folder ++ "/" ++ model_file)
  | _, _ => false

/-- `ensure_model_ready_for_character` (main.rs lines 625-691). -/
def ensure_model_ready_for_character (net : Except String (List Entry))
    (character_id : String) (st : SysState) : EnsureResult :=
  if ¬ is_valid_character_id character_id then ⟨.error "Invalid character id", st, 0⟩
  else
    let (slots, st1) := load_character_slots st
    match findSlot slots character_id with
    | none => ⟨.error "Character slot not found", st1, 0⟩
    | some slot =>
        let urlRes : Except String String :=
          if strIsEmpty (strTrim slot.model_url) then
            if character_id == PRIMARY_CHARACTER_ID then .ok DEFAULT_MODEL_URL
            else .error (character_id ++ " has no configured model URL")
          else .ok slot.model_url
        match urlRes with
        | .error e => ⟨.error e, st1, 0⟩
        | .ok model_url =>
            let has_configured_model := hasConfiguredModel st1 character_id slot
            if has_configured_model then
              ⟨.ok { url := model_url, folder := slot.folder.getD "",
                     model_file := slot.model_file.getD "",
                     texture_folder := slot.texture_folder }, st1, 0⟩
            else
              let st2 := { st1 with disk := wipeCharacter st1.disk character_id }
              match net with
              | .error e => ⟨.error e, st2, 1⟩
              | .ok extracted =>
                  match detect_model_structure extracted with
                  | .error e =>
                      ⟨.error e,
                       { st2 with disk := st2.disk ++ treeDiskPaths character_id extracted },
                       1⟩
                  | .ok (folder, model_file, texture_folder, newTree) =>
                      let st3 :=
                        { st2 with disk := st2.disk ++ treeDiskPaths character_id newTree }
                      let config : ModelConfig :=
                        { url := model_url, folder := folder, model_file := model_file,
                          texture_folder := texture_folder }
                      let slots2 := updateFirst (fun s => s.slot_id == character_id)
                        (fun s =>
                          { s with
                            model_url := model_url
                            enabled := true
                            folder := some folder
                            model_file := some model_file
                            texture_folder := texture_folder }) slots
                      let st4 := save_character_slots slots2 st3
                      let st5 :=
                        if character_id == PRIMARY_CHARACTER_ID then
                          save_model_config_for_character PRIMARY_CHARACTER_ID config st4
                        else st4
                      ⟨.ok config, st5, 1⟩

structure SpawnResult where
  character_id : String
  action : String
  visible_count : Nat
deriving Repr, DecidableEq

/-- `spawn_or_focus_next_character` (main.rs lines 2510-2601).  The
`visible_ids` computation of the source is logging-only and has no effect on
the result, so it is not modeled. -/
def spawn_or_focus_next_character (net : Except String (List Entry))
    (st : SysState) (vs : VisState) : Except String SpawnResult × SysState × VisState :=
  let (slots, st1) := load_character_slots st
  let enabled :=
    (slots.filter (fun s => s.enabled && ! strIsEmpty (strTrim s.model_url))).map
      (fun s => s.slot_id)
  let (slots, st1, enabled) :=
    if enabled.length == 1 && enabled.getD 0 "" == PRIMARY_CHARACTER_ID then
      let primary_url :=
        ((findSlot slots PRIMARY_CHARACTER_ID).map (fun s => strTrim s.model_url)).getD
          DEFAULT_MODEL_URL
      let (slots, st1) :=
        match findSlot slots "character_2" with
        | some slot2 =>
            if ! slot2.enabled || strIsEmpty (strTrim slot2.model_url) then
              let slots := updateFirst (fun s => s.slot_id == "character_2")
                (fun s =>
                  { s with
                    enabled := true
                    model_url :=
                      if strIsEmpty primary_url then DEFAULT_MODEL_URL else primary_url
                    folder := none
                    model_file := none
                    texture_folder := none }) slots
              (slots, save_character_slots slots st1)
            else (slots, st1)
        | none => (slots, st1)
      (slots, st1,
        (slots.filter (fun s => s.enabled && ! strIsEmpty (strTrim s.model_url))).map
          (fun s => s.slot_id))
    else (slots, st1, enabled)
  if enabled.isEmpty then (.error "No enabled character slots configured", st1, vs)
  else
    let active :=
      if strIsEmpty vs.active_character_id then PRIMARY_CHARACTER_ID
      else vs.active_character_id
    let ordered := enabled
    let next_idx :=
      if ordered.length == 1 then 0
      else (((ordered.findIdx? (fun i => i == active)).getD 0) + 1) % ordered.length
    let next_id := ordered.getD next_idx ""
    let eo := ensure_model_ready_for_character net next_id st1
    match eo.result with
    | .error e => (.error e, eo.st, vs)
    | .ok _ =>
        (.ok { character_id := next_id, action := "focused", visible_count := 1 },
         eo.st, show_overlay_for_character vs next_id)

/-- The cycle-target rotation the code actually implements, phrased the way
the amended claim states it: since `load_character_slots` forces every slot
enabled, the enabled list is always the full fixed list, and the target is
the fixed-order successor of the active slot (position 0 when absent or
empty). -/
def cycleTargetSpec (active0 : String) : String :=
  let active := if strIsEmpty active0 then PRIMARY_CHARACTER_ID else active0
  let idx := (CHARACTER_IDS.findIdx? (fun i => i == active)).getD 0
  CHARACTER_IDS.getD ((idx + 1) % CHARACTER_IDS.length) ""

/-- A persisted slots file in which exactly one slot (`character_2`) is
enabled — concrete input for exercising the cycle operation. -/
def oneEnabledSlots : List CharacterSlotConfig :=
  [⟨"character_1", "http://a/a.zip", false, none, none, none⟩,
   ⟨"character_2", "http://b/b.zip", true, some "m", some "m.model3.json", none⟩,
   ⟨"character_3", "http://c/c.zip", false, none, none, none⟩]

def oneEnabledState : SysState :=
  ⟨some oneEnabledSlots, none, none, ["character_2/m/m.model3.json"]⟩

def oneEnabledVis : VisState := ⟨fun _ => false, "character_2"⟩

def oneEnabledNet : Except String (List Entry) :=
  .ok [Entry.dir "m" [Entry.file "m.model3.json"]]

/-! ### Structural lemmas about the slot store -/

/-- The record `load_character_slots` produces for a given fixed identifier. -/
def slotFor (slot_id : String) (slots : List CharacterSlotConfig) : CharacterSlotConfig :=
  applyUrlDefault ((findSlot slots slot_id).getD (default_with_id slot_id))

theorem canonicalSlots_eq (l : List CharacterSlotConfig) :
    canonicalSlots l = [slotFor "character_1" l, slotFor "character_2" l, slotFor "character_3" l] := rfl

theorem applyUrlDefault_slot_id (s : CharacterSlotConfig) :
    (applyUrlDefault s).slot_id = s.slot_id := rfl

theorem applyUrlDefault_enabled (s : CharacterSlotConfig) :
    (applyUrlDefault s).enabled = true := rfl

theorem applyUrlDefault_folder (s : CharacterSlotConfig) :
    (applyUrlDefault s).folder = s.folder := rfl

theorem applyUrlDefault_model_file (s : CharacterSlotConfig) :
    (applyUrlDefault s).model_file = s.model_file := rfl

theorem applyUrlDefault_texture_folder (s : CharacterSlotConfig) :
    (applyUrlDefault s).texture_folder = s.texture_folder := rfl

theorem slot_default_url_not_empty (slot_id : String) :
    strIsEmpty (strTrim (slot_default_url slot_id)) = false := by
  unfold slot_default_url
  split_ifs <;> decide

theorem applyUrlDefault_model_url_not_empty (s : CharacterSlotConfig) :
    strIsEmpty (strTrim (applyUrlDefault s).model_url) = false := by
  unfold applyUrlDefault
  by_cases h : strIsEmpty (strTrim s.model_url) <;>
    simp [h, slot_default_url_not_empty]

theorem applyUrlDefault_idem (s : CharacterSlotConfig)
    (hu : strIsEmpty (strTrim s.model_url) = false) (he : s.enabled = true) :
    applyUrlDefault s = s := by
  unfold applyUrlDefault
  cases s
  simp_all

theorem findSlot_getD_slot_id (l : List CharacterSlotConfig) (slot_id : String) :
    ((findSlot l slot_id).getD (default_with_id slot_id)).slot_id = slot_id := by
  cases h : findSlot l slot_id with
  | none => simp [default_with_id]
  | some s =>
      unfold findSlot at h
      have hs := List.find?_some h
      simp only [beq_iff_eq] at hs
      simp [hs]

theorem slotFor_slot_id (slot_id : String) (l : List CharacterSlotConfig) :
    (slotFor slot_id l).slot_id = slot_id := by
  unfold slotFor
  rw [applyUrlDefault_slot_id, findSlot_getD_slot_id]

theorem merge_map_slot_id (l : List CharacterSlotConfig) :
    (merge_character_slots l).map (fun s => s.slot_id) = CHARACTER_IDS := by
  simp [merge_character_slots, CHARACTER_IDS, findSlot_getD_slot_id]

theorem canonicalSlots_map_slot_id (l : List CharacterSlotConfig) :
    (canonicalSlots l).map (fun s => s.slot_id) = CHARACTER_IDS := by
  rw [canonicalSlots_eq]
  simp [CHARACTER_IDS, slotFor_slot_id]

theorem updateFirst_map_slot_id (p : CharacterSlotConfig → Bool)
    (f : CharacterSlotConfig → CharacterSlotConfig) (l : List CharacterSlotConfig)
    (hf : ∀ s, (f s).slot_id = s.slot_id) :
    (updateFirst p f l).map (fun s => s.slot_id) = l.map (fun s => s.slot_id) := by
  induction l with
  | nil => rfl
  | cons a t ih => by_cases hp : p a <;> simp [updateFirst, hp, hf, ih]

/-- `merge_character_slots` fixes any list whose identifiers are exactly the
fixed ones in order. -/
theorem merge_of_fixed_ids (l : List CharacterSlotConfig)
    (h : l.map (fun s => s.slot_id) = CHARACTER_IDS) :
    merge_character_slots l = l := by
  rcases l with _ | ⟨a, _ | ⟨b, _ | ⟨c, _ | ⟨d, t⟩⟩⟩⟩ <;>
    simp [CHARACTER_IDS] at h
  obtain ⟨h1, h2, h3⟩ := h
  simp [merge_character_slots, CHARACTER_IDS, findSlot, List.find?, h1, h2, h3]

theorem merge_canonical (l : List CharacterSlotConfig) :
    merge_character_slots (canonicalSlots l) = canonicalSlots l :=
  merge_of_fixed_ids _ (canonicalSlots_map_slot_id l)

theorem apply_slot_url_defaults_idem (l : List CharacterSlotConfig) :
    apply_slot_url_defaults (apply_slot_url_defaults l) = apply_slot_url_defaults l := by
  unfold apply_slot_url_defaults
  rw [List.map_map]
  apply List.map_congr_left
  intro s _
  show applyUrlDefault (applyUrlDefault s) = applyUrlDefault s
  exact applyUrlDefault_idem _ (applyUrlDefault_model_url_not_empty _)
    (applyUrlDefault_enabled _)

theorem canonicalSlots_idem (l : List CharacterSlotConfig) :
    canonicalSlots (canonicalSlots l) = canonicalSlots l := by
  show apply_slot_url_defaults (merge_character_slots (canonicalSlots l)) = canonicalSlots l
  rw [merge_canonical]
  show apply_slot_url_defaults (apply_slot_url_defaults _) = _
  rw [apply_slot_url_defaults_idem]
  rfl

theorem load_of_some (st : SysState) (parsed : List CharacterSlotConfig)
    (h : st.slotsFile = some parsed) :
    load_character_slots st =
      (canonicalSlots parsed, { st with slotsFile := some (canonicalSlots parsed) }) := by
  simp [load_character_slots, h, save_character_slots, merge_canonical]

/-- Whatever the prior state, `load_character_slots` returns a canonical list
and persists it. -/
theorem load_shape (st : SysState) :
    ∃ l, load_character_slots st =
      (canonicalSlots l, { st with slotsFile := some (canonicalSlots l) }) := by
  cases h : st.slotsFile with
  | some parsed => exact ⟨parsed, load_of_some st parsed h⟩
  | none =>
      refine ⟨migrate_or_default_character_slots st, ?_⟩
      have hids : (migrate_or_default_character_slots st).map (fun s => s.slot_id) =
          CHARACTER_IDS := by
        unfold migrate_or_default_character_slots
        cases st.legacyFile with
        | none =>
            simp only [apply_slot_url_defaults, List.map_map]
            simpa [Function.comp] using merge_map_slot_id []
        | some legacy =>
            simp only [apply_slot_url_defaults, List.map_map]
            have := updateFirst_map_slot_id (fun s => s.slot_id == PRIMARY_CHARACTER_ID)
              (fun primary =>
                { primary with
                  model_url := legacy.url
                  enabled := true
                  folder := some legacy.folder
                  model_file := some legacy.model_file
                  texture_folder := legacy.texture_folder })
              (merge_character_slots []) (fun s => rfl)
            simpa [Function.comp, this] using merge_map_slot_id []
      have hmig : canonicalSlots (migrate_or_default_character_slots st) =
          migrate_or_default_character_slots st := by
        show apply_slot_url_defaults (merge_character_slots _) = _
        rw [merge_of_fixed_ids _ hids]
        unfold migrate_or_default_character_slots
        cases st.legacyFile <;> exact apply_slot_url_defaults_idem _
      rw [hmig]
      simp [load_character_slots, h, save_character_slots, merge_of_fixed_ids _ hids]

theorem load_enabled (st : SysState) :
    ∀ s ∈ (load_character_slots st).1, s.enabled = true := by
  obtain ⟨l, hl⟩ := load_shape st
  rw [hl, canonicalSlots_eq]
  intro s hs
  simp only [List.mem_cons, List.not_mem_nil, or_false] at hs
  rcases hs with rfl | rfl | rfl <;> exact applyUrlDefault_enabled _

theorem saveSlotMutation_slot_id (model_url : String) (enabled : Bool)
    (s : CharacterSlotConfig) :
    (saveSlotMutation model_url enabled s).slot_id = s.slot_id := by
  unfold saveSlotMutation
  dsimp only
  split <;> split <;> rfl

/-- Locating the saved slot after `save_character_slot`'s update of the
canonical loaded list, and stability of that list under the re-merge performed
by `save_character_slots`. -/
theorem findSlot_updateFirst_canonical (l : List CharacterSlotConfig) (slot_id : String)
    (f : CharacterSlotConfig → CharacterSlotConfig)
    (hf : ∀ s, (f s).slot_id = s.slot_id)
    (hmem : slot_id ∈ CHARACTER_IDS) :
    findSlot (updateFirst (fun s => s.slot_id == slot_id) f (canonicalSlots l)) slot_id =
      some (f (slotFor slot_id l)) := by
  fin_cases hmem <;>
  · rw [canonicalSlots_eq]
    simp [updateFirst, findSlot, List.find?, slotFor_slot_id, hf]

theorem merge_updateFirst_canonical (l : List CharacterSlotConfig) (slot_id : String)
    (f : CharacterSlotConfig → CharacterSlotConfig)
    (hf : ∀ s, (f s).slot_id = s.slot_id) :
    merge_character_slots (updateFirst (fun s => s.slot_id == slot_id) f (canonicalSlots l)) =
      updateFirst (fun s => s.slot_id == slot_id) f (canonicalSlots l) := by
  apply merge_of_fixed_ids
  rw [updateFirst_map_slot_id _ _ _ hf]
  exact canonicalSlots_map_slot_id l

/-- When the three guards pass, `save_character_slot` succeeds and persists the
canonical loaded list with the target slot mutated. -/
theorem save_character_slot_ok (st : SysState) (slot_id model_url : String) (enabled : Bool)
    (l : List CharacterSlotConfig)
    (hload : load_character_slots st =
      (canonicalSlots l, { st with slotsFile := some (canonicalSlots l) }))
    (hv : is_valid_character_id slot_id = true)
    (hg1 : ¬(enabled = true ∧ strIsEmpty (strTrim model_url) = true))
    (hg2 : ¬(strIsEmpty (strTrim model_url) = false ∧
        strEndsWith (strTrim model_url) ".zip" = false)) :
    save_character_slot slot_id model_url enabled st =
      (.ok (), { st with slotsFile := some (updateFirst (fun s => s.slot_id == slot_id)
          (saveSlotMutation model_url enabled) (canonicalSlots l)) }) := by
  unfold save_character_slot
  rw [if_neg (by simp [hv]), if_neg (by exact hg1),
    if_neg (by simpa [Bool.not_eq_true] using hg2), hload]
  simp only [save_character_slots,
    merge_updateFirst_canonical l slot_id _ (saveSlotMutation_slot_id model_url enabled)]

theorem is_valid_mem (slot_id : String) (hv : is_valid_character_id slot_id = true) :
    slot_id ∈ CHARACTER_IDS := by
  unfold is_valid_character_id at hv
  exact List.mem_of_elem_eq_true hv

/-- On a non-primary slot, a disabling save sets `enabled := false` and clears
the three asset fields. -/
theorem saveSlotMutation_nonprimary_disabled (model_url : String) (s : CharacterSlotConfig)
    (h : s.slot_id ≠ PRIMARY_CHARACTER_ID) :
    saveSlotMutation model_url false s =
      { slot_id := s.slot_id, model_url := strTrim model_url, enabled := false,
        folder := none, model_file := none, texture_folder := none } := by
  unfold saveSlotMutation
  dsimp only
  rw [show (s.slot_id == PRIMARY_CHARACTER_ID) = false from by simpa using h]
  simp

/-- An enabling save keeps the three asset fields unchanged. -/
theorem saveSlotMutation_enabled_true (model_url : String) (s : CharacterSlotConfig) :
    saveSlotMutation model_url true s =
      { slot_id := s.slot_id, model_url := strTrim model_url, enabled := true,
        folder := s.folder, model_file := s.model_file,
        texture_folder := s.texture_folder } := by
  unfold saveSlotMutation
  dsimp only
  rw [ite_self]
  simp

theorem ends_zip_not_empty (s : String) (h : strEndsWith s ".zip" = true) :
    strIsEmpty s = false := by
  unfold strEndsWith listEndsWith at h
  unfold strIsEmpty
  rcases hs : s.data with _ | ⟨c, cs⟩
  · rw [hs] at h
    simp only [List.drop_nil, beq_iff_eq] at h
    exact absurd h.symm (by decide)
  · rfl

theorem slotFor_folder (slot_id : String) (l : List CharacterSlotConfig) :
    (slotFor slot_id l).folder = ((findSlot l slot_id).getD (default_with_id slot_id)).folder := rfl

theorem slotFor_model_file (slot_id : String) (l : List CharacterSlotConfig) :
    (slotFor slot_id l).model_file =
      ((findSlot l slot_id).getD (default_with_id slot_id)).model_file := rfl

theorem slotFor_texture_folder (slot_id : String) (l : List CharacterSlotConfig) :
    (slotFor slot_id l).texture_folder =
      ((findSlot l slot_id).getD (default_with_id slot_id)).texture_folder := rfl

/-! ### Claim theorems: slot store -/

/-- C5: for every parsed slots list containing any subset (including the empty
set) of the three fixed slot identifiers, `load_character_slots` returns a
list with exactly one entry per fixed identifier, in the fixed order
`character_1, character_2, character_3`, and every identifier missing from the
parsed list is synthesized from `default_with_id`. -/
theorem C5_merge_totality (st : SysState) (parsed : List CharacterSlotConfig)
    (h : st.slotsFile = some parsed) :
    ((load_character_slots st).1.map (fun s => s.slot_id) = CHARACTER_IDS) ∧
    (∀ slot_id ∈ CHARACTER_IDS, findSlot parsed slot_id = none →
      findSlot (load_character_slots st).1 slot_id = some (default_with_id slot_id)) := by
  rw [load_of_some st parsed h]
  refine ⟨canonicalSlots_map_slot_id parsed, ?_⟩
  intro slot_id hmem hnone
  have hdef : ∀ s, s ∈ CHARACTER_IDS → findSlot parsed s = none →
      slotFor s parsed = default_with_id s := by
    intro s _ hn
    unfold slotFor
    rw [hn]
    exact applyUrlDefault_idem _
      (by simpa [default_with_id] using slot_default_url_not_empty s) rfl
  rw [canonicalSlots_eq]
  fin_cases hmem <;>
    simp [findSlot, List.find?, slotFor_slot_id, default_with_id,
      hdef _ (by simp [CHARACTER_IDS]) hnone]

theorem C5_witness :
    ((load_character_slots ⟨some [], none, none, []⟩).1.map (fun s => s.slot_id) =
      CHARACTER_IDS) ∧
    findSlot (load_character_slots ⟨some [], none, none, []⟩).1 "character_2" =
      some (default_with_id "character_2") := by
  have h := C5_merge_totality ⟨some [], none, none, []⟩ [] rfl
  exact ⟨h.1, h.2 "character_2" (by decide) rfl⟩

/-- C9: for every slot id (known or not), a save with `enabled = true` and an
empty or whitespace-only URL is rejected with an error and leaves the state —
in particular the persisted slots file — unchanged. -/
theorem C9_enabled_empty_url_rejected (st : SysState) (slot_id model_url : String)
    (h : strIsEmpty (strTrim model_url) = true) :
    ∃ e, save_character_slot slot_id model_url true st = (.error e, st) := by
  unfold save_character_slot
  by_cases hv : is_valid_character_id slot_id
  · exact ⟨"Enabled slot must have a model URL", by simp [hv, h]⟩
  · exact ⟨"Invalid slot_id", by simp [hv]⟩

theorem C9_witness :
    ∃ e, save_character_slot "character_2" "   " true ⟨some [], none, none, []⟩ =
      (Except.error e, ⟨some [], none, none, []⟩) :=
  C9_enabled_empty_url_rejected ⟨some [], none, none, []⟩ "character_2" "   " (by decide)

/-- C1 counterexample: saving the non-primary slot `character_2` disabled with
a `.zip` URL succeeds and persists `enabled = false`, but the subsequent
`load_character_slots` reports the slot as **enabled** — refuting the claim
that a load still reports it disabled. -/
theorem C1_counterexample :
    (save_character_slot "character_2" "http://x/y.zip" false
        ⟨some [], none, none, []⟩).1 = .ok () ∧
    ((findSlot ((save_character_slot "character_2" "http://x/y.zip" false
        ⟨some [], none, none, []⟩).2.slotsFile.getD []) "character_2").map
      (fun s => s.enabled)) = some false ∧
    ((findSlot (load_character_slots (save_character_slot "character_2" "http://x/y.zip" false
        ⟨some [], none, none, []⟩).2).1 "character_2").map
      (fun s => s.enabled)) = some true :=
  ⟨rfl, rfl, rfl⟩

/-- C1 amended: for every non-primary slot id and URL whose trimmed form ends
in ".zip", `save_character_slot slot_id url false` succeeds and persists
`enabled = false` for that slot, but a subsequent `load_character_slots`
reports every slot — in particular this one — as enabled, because
`apply_slot_url_defaults` forces `enabled = true` on load. -/
theorem C1_save_disabled_load_reenables (st : SysState) (slot_id model_url : String)
    (hv : is_valid_character_id slot_id = true)
    (hp : slot_id ≠ PRIMARY_CHARACTER_ID)
    (hz : strEndsWith (strTrim model_url) ".zip" = true) :
    (save_character_slot slot_id model_url false st).1 = .ok () ∧
    ((findSlot ((save_character_slot slot_id model_url false st).2.slotsFile.getD [])
        slot_id).map (fun s => s.enabled)) = some false ∧
    (∀ s ∈ (load_character_slots (save_character_slot slot_id model_url false st).2).1,
      s.enabled = true) := by
  obtain ⟨l, hl⟩ := load_shape st
  have hsave := save_character_slot_ok st slot_id model_url false l hl hv
    (by simp) (by simp [hz])
  rw [hsave]
  refine ⟨rfl, ?_, load_enabled _⟩
  dsimp only
  simp only [Option.getD_some]
  rw [findSlot_updateFirst_canonical l slot_id _ (saveSlotMutation_slot_id model_url false)
    (is_valid_mem slot_id hv)]
  rw [saveSlotMutation_nonprimary_disabled model_url _ (by rw [slotFor_slot_id]; exact hp)]
  rfl

theorem C1_witness :
    (save_character_slot "character_3" "http://x/y.zip" false
        ⟨some [], none, none, []⟩).1 = .ok () ∧
    ((findSlot ((save_character_slot "character_3" "http://x/y.zip" false
        ⟨some [], none, none, []⟩).2.slotsFile.getD []) "character_3").map
      (fun s => s.enabled)) = some false ∧
    (∀ s ∈ (load_character_slots (save_character_slot "character_3" "http://x/y.zip" false
        ⟨some [], none, none, []⟩).2).1, s.enabled = true) :=
  C1_save_disabled_load_reenables ⟨some [], none, none, []⟩ "character_3" "http://x/y.zip"
    (by decide) (by decide) (by decide)

/-- C10: for a non-primary slot with a persisted record, a successful
disabling save resets `folder`, `model_file` and `texture_folder` to `none`
in the persisted record, while a save with `enabled = true` leaves those three
fields exactly as they were in the persisted record. -/
theorem C10_disable_resets_assets (st : SysState) (parsed : List CharacterSlotConfig)
    (slot_id model_url : String) (r : CharacterSlotConfig)
    (hfile : st.slotsFile = some parsed)
    (hv : is_valid_character_id slot_id = true)
    (hp : slot_id ≠ PRIMARY_CHARACTER_ID)
    (hz : strEndsWith (strTrim model_url) ".zip" = true)
    (hr : findSlot parsed slot_id = some r) :
    (save_character_slot slot_id model_url false st).1 = .ok () ∧
    ((findSlot ((save_character_slot slot_id model_url false st).2.slotsFile.getD [])
        slot_id).map (fun s => (s.folder, s.model_file, s.texture_folder))) =
      some (none, none, none) ∧
    (save_character_slot slot_id model_url true st).1 = .ok () ∧
    ((findSlot ((save_character_slot slot_id model_url true st).2.slotsFile.getD [])
        slot_id).map (fun s => (s.folder, s.model_file, s.texture_folder))) =
      some (r.folder, r.model_file, r.texture_folder) := by
  have hl := load_of_some st parsed hfile
  have hne := ends_zip_not_empty _ hz
  have hmem := is_valid_mem slot_id hv
  have hsave0 := save_character_slot_ok st slot_id model_url false parsed hl hv
    (by simp) (by simp [hz])
  have hsave1 := save_character_slot_ok st slot_id model_url true parsed hl hv
    (by simp [hne]) (by simp [hz])
  rw [hsave0, hsave1]
  refine ⟨rfl, ?_, rfl, ?_⟩ <;> dsimp only <;> simp only [Option.getD_some]
  · rw [findSlot_updateFirst_canonical parsed slot_id _
      (saveSlotMutation_slot_id model_url false) hmem]
    rw [saveSlotMutation_nonprimary_disabled model_url _ (by rw [slotFor_slot_id]; exact hp)]
    rfl
  · rw [findSlot_updateFirst_canonical parsed slot_id _
      (saveSlotMutation_slot_id model_url true) hmem]
    rw [saveSlotMutation_enabled_true]
    simp [slotFor_folder, slotFor_model_file, slotFor_texture_folder, hr]

theorem C10_witness :
    (save_character_slot "character_2" "http://x/y.zip" false
        ⟨some [⟨"character_2", "http://a/b.zip", true, some "F", some "M.model3.json",
          some "T"⟩], none, none, []⟩).1 = .ok () ∧
    ((findSlot ((save_character_slot "character_2" "http://x/y.zip" false
        ⟨some [⟨"character_2", "http://a/b.zip", true, some "F", some "M.model3.json",
          some "T"⟩], none, none, []⟩).2.slotsFile.getD [])
        "character_2").map (fun s => (s.folder, s.model_file, s.texture_folder))) =
      some (none, none, none) ∧
    (save_character_slot "character_2" "http://x/y.zip" true
        ⟨some [⟨"character_2", "http://a/b.zip", true, some "F", some "M.model3.json",
          some "T"⟩], none, none, []⟩).1 = .ok () ∧
    ((findSlot ((save_character_slot "character_2" "http://x/y.zip" true
        ⟨some [⟨"character_2", "http://a/b.zip", true, some "F", some "M.model3.json",
          some "T"⟩], none, none, []⟩).2.slotsFile.getD [])
        "character_2").map (fun s => (s.folder, s.model_file, s.texture_folder))) =
      some (some "F", some "M.model3.json", some "T") := by
  have h := C10_disable_resets_assets
    ⟨some [⟨"character_2", "http://a/b.zip", true, some "F", some "M.model3.json",
      some "T"⟩], none, none, []⟩
    [⟨"character_2", "http://a/b.zip", true, some "F", some "M.model3.json", some "T"⟩]
    "character_2" "http://x/y.zip"
    ⟨"character_2", "http://a/b.zip", true, some "F", some "M.model3.json", some "T"⟩
    rfl (by decide) (by decide) (by decide) (by decide)
  exact h

/-! ### Lemmas about the recursive descriptor search -/

theorem findSome?_isSome_of_mem {α β : Type} (f : α → Option β) (l : List α) (a : α) (b : β)
    (hmem : a ∈ l) (hf : f a = some b) : (l.findSome? f).isSome = true := by
  induction l with
  | nil => simp at hmem
  | cons x rest ih =>
      rw [List.findSome?_cons]
      cases hx : f x with
      | some c => simp
      | none =>
          rcases List.mem_cons.mp hmem with rfl | hmem'
          · rw [hx] at hf; simp at hf
          · simpa using ih hmem'

theorem firstModelFile_none_no_file (entries : List Entry)
    (h : firstModelFile entries = none) :
    ∀ n, Entry.file n ∈ entries → strEndsWith n ".model3.json" = false := by
  induction entries with
  | nil => intro n hn; simp at hn
  | cons e rest ih =>
      intro n hn
      cases e with
      | file m =>
          by_cases hm : strEndsWith m ".model3.json"
          · rw [firstModelFile, if_pos hm] at h
            exact absurd h (by simp)
          · rw [firstModelFile, if_neg hm] at h
            rcases List.mem_cons.mp hn with heq | hmem
            · injection heq with h'
              subst h'
              simpa using hm
            · exact ih h n hmem
      | dir m sub =>
          rw [firstModelFile] at h
          rcases List.mem_cons.mp hn with heq | hmem
          · exact absurd heq (by simp)
          · exact ih h n hmem

theorem firstModelFile_some (entries : List Entry) (n : String)
    (h : firstModelFile entries = some n) :
    Entry.file n ∈ entries ∧ strEndsWith n ".model3.json" = true := by
  induction entries with
  | nil => simp [firstModelFile] at h
  | cons e rest ih =>
      cases e with
      | file m =>
          by_cases hm : strEndsWith m ".model3.json"
          · rw [firstModelFile, if_pos hm] at h
            injection h with h'
            subst h'
            exact ⟨List.mem_cons_self _ _, hm⟩
          · rw [firstModelFile, if_neg hm] at h
            obtain ⟨h1, h2⟩ := ih h
            exact ⟨List.mem_cons_of_mem _ h1, h2⟩
      | dir m sub =>
          rw [firstModelFile] at h
          obtain ⟨h1, h2⟩ := ih h
          exact ⟨List.mem_cons_of_mem _ h1, h2⟩

/-- Soundness half of the depth bound: a descriptor within the depth budget is
found. -/
theorem find_isSome_of_within :
    ∀ (d : Nat) (entries : List Entry) (path : List String),
      hasModelWithin entries d = true →
      (find_model_file_recursive d path entries).isSome = true := by
  intro d
  induction d with
  | zero => intro entries path h; simp [hasModelWithin] at h
  | succ d ih =>
      intro entries path h
      simp only [hasModelWithin, List.any_eq_true] at h
      obtain ⟨e, hmem, hpred⟩ := h
      rw [find_model_file_recursive]
      cases hf : firstModelFile entries with
      | some name => simp
      | none =>
          dsimp only
          cases e with
          | file n =>
              dsimp only at hpred
              rw [firstModelFile_none_no_file entries hf n hmem] at hpred
              exact absurd hpred (by simp)
          | dir n sub =>
              dsimp only at hpred
              have hrec := ih sub (path ++ [n]) hpred
              obtain ⟨r, hr⟩ := Option.isSome_iff_exists.mp hrec
              exact findSome?_isSome_of_mem _ entries (Entry.dir n sub) r hmem hr

/-- Completeness half of the depth bound: anything found lies within the depth
budget. -/
theorem within_of_find_some :
    ∀ (d : Nat) (entries : List Entry) (path : List String) (r : List String × String),
      find_model_file_recursive d path entries = some r →
      hasModelWithin entries d = true := by
  intro d
  induction d with
  | zero => intro entries path r h; simp [find_model_file_recursive] at h
  | succ d ih =>
      intro entries path r h
      rw [find_model_file_recursive] at h
      cases hf : firstModelFile entries with
      | some name =>
          obtain ⟨h1, h2⟩ := firstModelFile_some entries name hf
          simp only [hasModelWithin, List.any_eq_true]
          exact ⟨.file name, h1, h2⟩
      | none =>
          rw [hf] at h
          obtain ⟨a, hmem, ha⟩ := List.exists_of_findSome?_eq_some h
          cases a with
          | file n => simp at ha
          | dir n sub =>
              simp only at ha
              simp only [hasModelWithin, List.any_eq_true]
              exact ⟨.dir n sub, hmem, ih sub (path ++ [n]) r ha⟩

theorem within_of_atDepth :
    ∀ (n d : Nat) (entries : List Entry), hasModelAtDepth entries d = true → d ≤ n →
      hasModelWithin entries n = true := by
  intro n
  induction n with
  | zero =>
      intro d entries h hle
      have hd : d = 0 := Nat.le_zero.mp hle
      subst hd
      simp [hasModelAtDepth] at h
  | succ n ih =>
      intro d entries h hle
      rcases d with _ | _ | k
      · simp [hasModelAtDepth] at h
      · simp only [hasModelAtDepth, List.any_eq_true] at h
        obtain ⟨e, hmem, hp⟩ := h
        cases e with
        | file m =>
            simp only [hasModelWithin, List.any_eq_true]
            exact ⟨.file m, hmem, hp⟩
        | dir m sub => simp at hp
      · simp only [hasModelAtDepth, List.any_eq_true] at h
        obtain ⟨e, hmem, hp⟩ := h
        cases e with
        | file m => simp at hp
        | dir m sub =>
            simp only [hasModelWithin, List.any_eq_true]
            exact ⟨.dir m sub, hmem, ih (k + 1) sub hp (by omega)⟩

/-! ### Claim theorems: structure normalizer -/

/-- C6: with the fixed depth bound 3, the recursive descriptor search finds a
`*.model3.json` placed exactly 3 levels below the searched subdirectory,
returns nothing when every descriptor sits 4 levels down (none within 3), and
at each level files are checked before any subdirectory is descended into —
a match among the files at the current level wins immediately. -/
theorem C6_search_depth_bound :
    (∀ (entries : List Entry) (path : List String),
      hasModelAtDepth entries 3 = true →
      (find_model_file_recursive MAX_MODEL_SEARCH_DEPTH path entries).isSome = true) ∧
    (∀ (entries : List Entry) (path : List String),
      hasModelAtDepth entries 4 = true → hasModelWithin entries 3 = false →
      find_model_file_recursive MAX_MODEL_SEARCH_DEPTH path entries = none) ∧
    (∀ (entries : List Entry) (path : List String) (d : Nat) (name : String),
      firstModelFile entries = some name →
      find_model_file_recursive (d + 1) path entries = some (path, name)) := by
  refine ⟨?_, ?_, ?_⟩
  · intro entries path h
    exact find_isSome_of_within 3 entries path (within_of_atDepth 3 3 entries h (by omega))
  · intro entries path _ h3
    cases hr : find_model_file_recursive MAX_MODEL_SEARCH_DEPTH path entries with
    | none => rfl
    | some r =>
        have := within_of_find_some 3 entries path r hr
        rw [h3] at this
        exact absurd this (by simp)
  · intro entries path d name hf
    rw [find_model_file_recursive, hf]

theorem C6_witness :
    ((find_model_file_recursive MAX_MODEL_SEARCH_DEPTH []
        [Entry.dir "a" [Entry.dir "b" [Entry.file "m.model3.json"]]]).isSome = true) ∧
    (find_model_file_recursive MAX_MODEL_SEARCH_DEPTH []
        [Entry.dir "a" [Entry.dir "b" [Entry.dir "c" [Entry.file "m.model3.json"]]]] =
      none) ∧
    (find_model_file_recursive 3 []
        [Entry.dir "z" [Entry.file "x.model3.json"], Entry.file "y.model3.json"] =
      some ([], "y.model3.json")) :=
  ⟨C6_search_depth_bound.1 _ [] (by decide),
   C6_search_depth_bound.2.1 _ [] (by decide) (by decide),
   C6_search_depth_bound.2.2 _ [] 2 _ (by decide)⟩

theorem png_name_ne (s other : String) (h : strEndsWith s ".png" = true)
    (hother : strEndsWith other ".png" = false) : (s == other) = false := by
  rw [beq_eq_false_iff_ne]
  intro hcontra
  rw [hcontra] at h
  rw [h] at hother
  exact absurd hother (by simp)

/-- C8: an extraction root directly containing `foo.model3.json` and three
sibling PNG files is normalized by creating subfolder `foo`, moving the
descriptor and all three PNGs into it (the newly created subfolder itself is
the only entry skipped), and returning folder "foo" with model file
"foo.model3.json" (and no texture folder, as the moved entries are plain
files). -/
theorem C8_flat_normalization (p1 p2 p3 : String)
    (h1 : strEndsWith p1 ".png" = true) (h2 : strEndsWith p2 ".png" = true)
    (h3 : strEndsWith p3 ".png" = true) :
    detect_model_structure
        [Entry.file "foo.model3.json", Entry.file p1, Entry.file p2, Entry.file p3] =
      .ok ("foo", "foo.model3.json", none,
        [Entry.dir "foo" [Entry.file "foo.model3.json", Entry.file p1, Entry.file p2,
          Entry.file p3]]) := by
  have c1 : strEndsWith "foo.model3.json" ".model3.json" = true := by decide
  have c2 : ("foo.model3.json" == "foo") = false := by decide
  have c3 : trim_end_matches "foo.model3.json" ".model3.json" = "foo" := by decide
  have haux : strEndsWith "foo" ".png" = false := by decide
  have e1 : (p1 == "foo") = false := png_name_ne p1 "foo" h1 haux
  have e2 : (p2 == "foo") = false := png_name_ne p2 "foo" h2 haux
  have e3 : (p3 == "foo") = false := png_name_ne p3 "foo" h3 haux
  rw [detect_model_structure]
  rw [show firstModelFile
      [Entry.file "foo.model3.json", Entry.file p1, Entry.file p2, Entry.file p3] =
      some "foo.model3.json" from by rw [firstModelFile, if_pos c1]]
  unfold reorganize_flat_model
  simp only [c3, Entry.name, List.any_cons, List.any_nil, List.filter, c2, e1, e2, e3,
    List.findSome?_cons, List.findSome?_nil, Bool.or_false, Bool.false_or,
    Bool.not_false, if_false, Option.getD_none, List.nil_append]
  rfl

theorem C8_witness :
    detect_model_structure
        [Entry.file "foo.model3.json", Entry.file "a.png", Entry.file "b.png",
          Entry.file "c.png"] =
      .ok ("foo", "foo.model3.json", none,
        [Entry.dir "foo" [Entry.file "foo.model3.json", Entry.file "a.png",
          Entry.file "b.png", Entry.file "c.png"]]) :=
  C8_flat_normalization "a.png" "b.png" "c.png" (by decide) (by decide) (by decide)

/-! ### Lemmas about the visibility state machine -/

theorem show_visible_eval (vs : VisState) (character_id s : String)
    (hs : s ∈ CHARACTER_IDS) :
    (show_overlay_for_character vs character_id).overlay_visible s = (s == character_id) := by
  fin_cases hs <;>
  · simp only [show_overlay_for_character, CHARACTER_IDS, List.foldl,
      set_overlay_visible_for_character]
    by_cases h : ("character_1" = character_id) <;>
      by_cases h2 : ("character_2" = character_id) <;>
        by_cases h3 : ("character_3" = character_id) <;>
          simp [h, h2, h3, apply_ite (f := fun f : String → Bool => f "character_1"),
            apply_ite (f := fun f : String → Bool => f "character_2"),
            apply_ite (f := fun f : String → Bool => f "character_3")]

theorem show_count_le_one (vs : VisState) (character_id : String) :
    countVisible (show_overlay_for_character vs character_id) ≤ 1 := by
  unfold countVisible
  have h1 := show_visible_eval vs character_id "character_1" (by decide)
  have h2 := show_visible_eval vs character_id "character_2" (by decide)
  have h3 := show_visible_eval vs character_id "character_3" (by decide)
  simp only [CHARACTER_IDS, List.filter, h1, h2, h3]
  cases b1 : ("character_1" == character_id) <;>
    cases b2 : ("character_2" == character_id) <;>
      cases b3 : ("character_3" == character_id) <;>
        simp only [b1, b2, b3] <;>
          first
            | exact absurd ((beq_iff_eq.mp b1).trans
                (beq_iff_eq.mp b2).symm) (by decide)
            | exact absurd ((beq_iff_eq.mp b1).trans
                (beq_iff_eq.mp b3).symm) (by decide)
            | exact absurd ((beq_iff_eq.mp b2).trans
                (beq_iff_eq.mp b3).symm) (by decide)
            | simp

theorem foldl_show_count (ids : List String) :
    ∀ vs : VisState, countVisible vs ≤ 1 →
      countVisible (ids.foldl show_overlay_for_character vs) ≤ 1 := by
  induction ids with
  | nil => intro vs h; simpa using h
  | cons i rest ih =>
      intro vs _
      rw [List.foldl_cons]
      exact ih _ (show_count_le_one vs i)

/-! ### Claim theorem: visibility invariant -/

/-- C7: starting from the initial all-hidden state, after any sequence of
`show_overlay_for_character` operations at most one slot is recorded visible
in the overlay map; moreover each individual show leaves at most one slot
visible, marks its target visible (after hiding every other slot), and sets
the target as the active slot. -/
theorem C7_single_visible :
    (∀ ids : List String,
      countVisible (ids.foldl show_overlay_for_character initVisState) ≤ 1) ∧
    (∀ (vs : VisState) (character_id : String),
      countVisible (show_overlay_for_character vs character_id) ≤ 1 ∧
      (show_overlay_for_character vs character_id).overlay_visible character_id = true ∧
      (∀ other ∈ CHARACTER_IDS, other ≠ character_id →
        (show_overlay_for_character vs character_id).overlay_visible other = false) ∧
      (show_overlay_for_character vs character_id).active_character_id = character_id) := by
  refine ⟨fun ids => foldl_show_count ids initVisState (by decide), fun vs character_id => ?_⟩
  refine ⟨show_count_le_one vs character_id, ?_, ?_, rfl⟩
  · simp [show_overlay_for_character, set_overlay_visible_for_character]
  · intro other hmem hne
    rw [show_visible_eval vs character_id other hmem]
    simpa using hne

/-! ### Lemmas about the provisioning orchestrator -/

theorem findSlot_canonical (l : List CharacterSlotConfig) (slot_id : String)
    (hmem : slot_id ∈ CHARACTER_IDS) :
    findSlot (canonicalSlots l) slot_id = some (slotFor slot_id l) := by
  fin_cases hmem <;>
  · rw [canonicalSlots_eq]
    simp [findSlot, List.find?, slotFor_slot_id]

theorem slotFor_enabled (slot_id : String) (l : List CharacterSlotConfig) :
    (slotFor slot_id l).enabled = true :=
  applyUrlDefault_enabled _

theorem slotFor_url_not_empty (slot_id : String) (l : List CharacterSlotConfig) :
    strIsEmpty (strTrim (slotFor slot_id l).model_url) = false :=
  applyUrlDefault_model_url_not_empty _

/-- Fast-path evaluation of `ensure_model_ready_for_character`: when the
persisted record for a valid slot has `folder` and `model_file` set and the
corresponding file exists on disk, the call returns the recorded config with
zero downloads, leaving the state untouched except for the slot store's
self-healing canonicalization of the slots file. -/
theorem ensure_fast_path (net : Except String (List Entry)) (st : SysState)
    (parsed : List CharacterSlotConfig) (character_id folder model_file : String)
    (r : CharacterSlotConfig)
    (hfile : st.slotsFile = some parsed)
    (hv : is_valid_character_id character_id = true)
    (hr : findSlot parsed character_id = some r)
    (hf : r.folder = some folder) (hm : r.model_file = some model_file)
    (hd : st.disk.contains (character_id ++ "/" ++ folder ++ "/" ++ model_file) = true) :
    ensure_model_ready_for_character net character_id st =
      ⟨.ok { url := (applyUrlDefault r).model_url, folder := folder,
             model_file := model_file, texture_folder := r.texture_folder },
       { st with slotsFile := some (canonicalSlots parsed) }, 0⟩ := by
  have hslot : slotFor character_id parsed = applyUrlDefault r := by
    unfold slotFor
    rw [hr]
    rfl
  unfold ensure_model_ready_for_character
  rw [if_neg (by simp [hv]), load_of_some st parsed hfile]
  dsimp only
  rw [findSlot_canonical parsed character_id (is_valid_mem _ hv), hslot]
  dsimp only
  rw [if_neg (show ¬ strIsEmpty (strTrim (applyUrlDefault r).model_url) = true from by
    simp [applyUrlDefault_model_url_not_empty])]
  dsimp only
  rw [if_pos (show hasConfiguredModel { st with slotsFile := some (canonicalSlots parsed) }
      character_id (applyUrlDefault r) = true from by
    unfold hasConfiguredModel
    rw [applyUrlDefault_folder, applyUrlDefault_model_file, hf, hm]
    exact hd)]
  rw [applyUrlDefault_folder, applyUrlDefault_model_file, applyUrlDefault_texture_folder,
    hf, hm]
  rfl

/-- C3: for every slot whose persisted record has `folder` and `model_file`
set and whose descriptor file exists on disk under the slot's private models
root, `ensure_model_ready_for_character` returns the recorded config with
zero network downloads and without mutating the models filesystem (the slot
store's self-healing re-save of the slots file on load is the only state
change); consequently a second call with no intervening filesystem mutation
also performs zero network calls, returns the identical result, and leaves
the whole state fixed. -/
theorem C3_fast_path_idempotent (net net2 : Except String (List Entry)) (st : SysState)
    (parsed : List CharacterSlotConfig) (character_id folder model_file : String)
    (r : CharacterSlotConfig)
    (hfile : st.slotsFile = some parsed)
    (hv : is_valid_character_id character_id = true)
    (hr : findSlot parsed character_id = some r)
    (hf : r.folder = some folder) (hm : r.model_file = some model_file)
    (hd : st.disk.contains (character_id ++ "/" ++ folder ++ "/" ++ model_file) = true) :
    ∃ config : ModelConfig,
      ensure_model_ready_for_character net character_id st =
        ⟨.ok config, { st with slotsFile := some (canonicalSlots parsed) }, 0⟩ ∧
      (ensure_model_ready_for_character net character_id st).st.disk = st.disk ∧
      ensure_model_ready_for_character net2 character_id
          (ensure_model_ready_for_character net character_id st).st =
        ⟨.ok config, (ensure_model_ready_for_character net character_id st).st, 0⟩ := by
  have h1 := ensure_fast_path net st parsed character_id folder model_file r
    hfile hv hr hf hm hd
  refine ⟨_, h1, by rw [h1], ?_⟩
  rw [h1]
  have hr2 : findSlot (canonicalSlots parsed) character_id = some (applyUrlDefault r) := by
    rw [findSlot_canonical parsed character_id (is_valid_mem _ hv)]
    unfold slotFor
    rw [hr]
    rfl
  have hidem : applyUrlDefault (applyUrlDefault r) = applyUrlDefault r :=
    applyUrlDefault_idem _ (applyUrlDefault_model_url_not_empty r)
      (applyUrlDefault_enabled r)
  have h2 := ensure_fast_path net2 { st with slotsFile := some (canonicalSlots parsed) }
    (canonicalSlots parsed) character_id folder model_file (applyUrlDefault r)
    rfl hv hr2 (by rw [applyUrlDefault_folder, hf]) (by rw [applyUrlDefault_model_file, hm])
    (by exact hd)
  rw [h2, hidem]
  simp [canonicalSlots_idem, applyUrlDefault_texture_folder]

theorem C3_witness :
    ∃ config : ModelConfig,
      ensure_model_ready_for_character (.error "net down") "character_2"
          ⟨some [⟨"character_2", "http://b/b.zip", true, some "m", some "m.model3.json",
            none⟩], none, none, ["character_2/m/m.model3.json"]⟩ =
        ⟨.ok config,
         { SysState.mk (some [⟨"character_2", "http://b/b.zip", true, some "m",
             some "m.model3.json", none⟩]) none none ["character_2/m/m.model3.json"] with
           slotsFile := some (canonicalSlots [⟨"character_2", "http://b/b.zip", true,
             some "m", some "m.model3.json", none⟩]) }, 0⟩ ∧
      (ensure_model_ready_for_character (.error "net down") "character_2"
          ⟨some [⟨"character_2", "http://b/b.zip", true, some "m", some "m.model3.json",
            none⟩], none, none, ["character_2/m/m.model3.json"]⟩).st.disk =
        ["character_2/m/m.model3.json"] ∧
      ensure_model_ready_for_character (.error "net still down") "character_2"
          (ensure_model_ready_for_character (.error "net down") "character_2"
            ⟨some [⟨"character_2", "http://b/b.zip", true, some "m", some "m.model3.json",
              none⟩], none, none, ["character_2/m/m.model3.json"]⟩).st =
        ⟨.ok config,
         (ensure_model_ready_for_character (.error "net down") "character_2"
           ⟨some [⟨"character_2", "http://b/b.zip", true, some "m", some "m.model3.json",
             none⟩], none, none, ["character_2/m/m.model3.json"]⟩).st, 0⟩ :=
  C3_fast_path_idempotent (.error "net down") (.error "net still down")
    ⟨some [⟨"character_2", "http://b/b.zip", true, some "m", some "m.model3.json", none⟩],
      none, none, ["character_2/m/m.model3.json"]⟩
    [⟨"character_2", "http://b/b.zip", true, some "m", some "m.model3.json", none⟩]
    "character_2" "m" "m.model3.json"
    ⟨"character_2", "http://b/b.zip", true, some "m", some "m.model3.json", none⟩
    rfl (by decide) rfl rfl rfl (by decide)

/-- C4: if `ensure_model_ready_for_character` fails at any point — download /
extraction (the network oracle), or structure detection — the persisted
record's asset fields (`folder`, `model_file`, `texture_folder`) are
unchanged from their values before the attempt; they are only written after
structure detection fully succeeds. -/
theorem C4_failure_preserves_assets (net : Except String (List Entry)) (st : SysState)
    (parsed : List CharacterSlotConfig) (character_id : String) (r : CharacterSlotConfig)
    (e : String)
    (hfile : st.slotsFile = some parsed)
    (hr : findSlot parsed character_id = some r)
    (herr : (ensure_model_ready_for_character net character_id st).result =
      Except.error e) :
    ∃ r', findSlot
        ((ensure_model_ready_for_character net character_id st).st.slotsFile.getD [])
        character_id = some r' ∧
      r'.folder = r.folder ∧ r'.model_file = r.model_file ∧
      r'.texture_folder = r.texture_folder := by
  by_cases hv : is_valid_character_id character_id = true
  case neg =>
    have hinv : ensure_model_ready_for_character net character_id st =
        ⟨.error "Invalid character id", st, 0⟩ := by
      unfold ensure_model_ready_for_character
      rw [if_pos (by simp [hv])]
    rw [hinv]
    dsimp only
    rw [hfile]
    exact ⟨r, by simpa using hr, rfl, rfl, rfl⟩
  case pos =>
    have hslot : slotFor character_id parsed = applyUrlDefault r := by
      unfold slotFor
      rw [hr]
      rfl
    have hfind2 : findSlot (canonicalSlots parsed) character_id =
        some (applyUrlDefault r) := by
      rw [findSlot_canonical parsed character_id (is_valid_mem _ hv), hslot]
    have hwit : ∀ st' : SysState, st'.slotsFile = some (canonicalSlots parsed) →
        ∃ r', findSlot (st'.slotsFile.getD []) character_id = some r' ∧
          r'.folder = r.folder ∧ r'.model_file = r.model_file ∧
          r'.texture_folder = r.texture_folder := by
      intro st' h
      rw [h]
      exact ⟨applyUrlDefault r, by simpa using hfind2,
        applyUrlDefault_folder r, applyUrlDefault_model_file r,
        applyUrlDefault_texture_folder r⟩
    unfold ensure_model_ready_for_character at herr ⊢
    rw [if_neg (by simp [hv]), load_of_some st parsed hfile] at herr ⊢
    dsimp only at herr ⊢
    rw [hfind2] at herr ⊢
    dsimp only at herr ⊢
    rw [if_neg (show ¬ strIsEmpty (strTrim (applyUrlDefault r).model_url) = true from by
      simp [applyUrlDefault_model_url_not_empty])] at herr ⊢
    dsimp only at herr ⊢
    cases hconf : hasConfiguredModel { st with slotsFile := some (canonicalSlots parsed) }
        character_id (applyUrlDefault r) with
    | true =>
        rw [if_pos hconf] at herr
        simp at herr
    | false =>
        rw [if_neg (by simp [hconf])] at herr ⊢
        cases net with
        | error e' => exact hwit _ rfl
        | ok extracted =>
            dsimp only at herr ⊢
            cases hdet : detect_model_structure extracted with
            | error e' => exact hwit _ rfl
            | ok res =>
                rw [hdet] at herr
                obtain ⟨folder, model_file, texture_folder, newTree⟩ := res
                simp at herr

theorem C4_witness :
    ∃ r', findSlot
        ((ensure_model_ready_for_character (.error "Download failed") "character_2"
          ⟨some [⟨"character_2", "http://b/b.zip", true, some "F", some "M.model3.json",
            some "T"⟩], none, none, []⟩).st.slotsFile.getD []) "character_2" = some r' ∧
      r'.folder = some "F" ∧ r'.model_file = some "M.model3.json" ∧
      r'.texture_folder = some "T" :=
  C4_failure_preserves_assets (.error "Download failed")
    ⟨some [⟨"character_2", "http://b/b.zip", true, some "F", some "M.model3.json",
      some "T"⟩], none, none, []⟩
    [⟨"character_2", "http://b/b.zip", true, some "F", some "M.model3.json", some "T"⟩]
    "character_2"
    ⟨"character_2", "http://b/b.zip", true, some "F", some "M.model3.json", some "T"⟩
    "Download failed" rfl rfl rfl

/-! ### Lemmas about the cycle operation -/

/-- After the canonicalization performed by every load, all three slots pass
the enabled-with-URL filter of `spawn_or_focus_next_character`. -/
theorem canonical_filter_enabled (l : List CharacterSlotConfig) :
    (((canonicalSlots l).filter
        (fun s => s.enabled && ! strIsEmpty (strTrim s.model_url))).map
      (fun s => s.slot_id)) = CHARACTER_IDS := by
  rw [canonicalSlots_eq]
  simp [List.filter, slotFor_enabled, slotFor_url_not_empty, slotFor_slot_id, CHARACTER_IDS]

/-- The tail of `spawn_or_focus_next_character`: when the provisioning result
is `ok`, the returned record is built from `next_id` and the show transition
makes `next_id` active. -/
theorem spawn_tail (q : EnsureResult) (vs : VisState) (next_id : String)
    (r : SpawnResult) (st' : SysState) (vs' : VisState)
    (h : (match q.result with
          | .error e => ((.error e : Except String SpawnResult), q.st, vs)
          | .ok _ =>
              (.ok { character_id := next_id, action := "focused", visible_count := 1 },
               q.st, show_overlay_for_character vs next_id)) =
        (.ok r, st', vs')) :
    r.character_id = next_id ∧ vs'.active_character_id = next_id := by
  cases hq : q.result with
  | error e => rw [hq] at h; simp at h
  | ok c =>
      rw [hq] at h
      simp only [Prod.mk.injEq] at h
      obtain ⟨h1, _, h3⟩ := h
      injection h1 with h1
      refine ⟨by rw [← h1], by rw [← h3]; rfl⟩

/-! ### Claim theorems: cycle operation -/

/-- C2 counterexample: a persisted state in which exactly one slot
(`character_2`) is enabled, with `character_2` active — the cycle operation
returns `character_3`, not the single enabled slot, because load forces all
three slots enabled before the enabled list is computed. -/
theorem C2_counterexample :
    ((oneEnabledSlots.filter (fun s => s.enabled)).map (fun s => s.slot_id) =
      ["character_2"]) ∧
    oneEnabledVis.active_character_id = "character_2" ∧
    (spawn_or_focus_next_character oneEnabledNet oneEnabledState oneEnabledVis).1 =
      .ok ⟨"character_3", "focused", 1⟩ :=
  ⟨rfl, rfl, rfl⟩

/-- C2 amended: because `load_character_slots` forces every slot enabled, the
enabled list inside the cycle operation is always the full fixed list, so the
cycle targets the fixed-order successor of the active slot regardless of the
persisted enabled flags; in particular, with enabled slots `[A, B, C]` and
active = B it targets C, and with active = C it wraps around to A.  A state
with exactly one persisted-enabled slot is therefore *not* re-shown unless it
happens to be that successor. -/
theorem C2_cycle_rotation :
    (∀ (net : Except String (List Entry)) (st : SysState) (vs : VisState)
        (r : SpawnResult) (st' : SysState) (vs' : VisState),
      spawn_or_focus_next_character net st vs = (.ok r, st', vs') →
      r.character_id = cycleTargetSpec vs.active_character_id ∧
      vs'.active_character_id = r.character_id) ∧
    cycleTargetSpec "character_2" = "character_3" ∧
    cycleTargetSpec "character_3" = "character_1" := by
  refine ⟨?_, by decide, by decide⟩
  intro net st vs r st' vs' h
  unfold spawn_or_focus_next_character at h
  obtain ⟨l, hl⟩ := load_shape st
  rw [hl] at h
  dsimp only at h
  rw [canonical_filter_enabled l] at h
  simp only [show (CHARACTER_IDS.length == 1 &&
      CHARACTER_IDS.getD 0 "" == PRIMARY_CHARACTER_ID) = false from by decide,
    show CHARACTER_IDS.isEmpty = false from by decide,
    show (CHARACTER_IDS.length == 1) = false from by decide,
    Bool.false_eq_true, if_false] at h
  have := spawn_tail _ vs _ r st' vs' h
  refine ⟨?_, by rw [this.2, this.1]⟩
  rw [this.1]
  rfl

theorem C2_witness :
    (SpawnResult.mk "character_3" "focused" 1).character_id =
      cycleTargetSpec oneEnabledVis.active_character_id ∧
    ((spawn_or_focus_next_character oneEnabledNet oneEnabledState
        oneEnabledVis).2.2).active_character_id =
      (SpawnResult.mk "character_3" "focused" 1).character_id :=
  C2_cycle_rotation.1 oneEnabledNet oneEnabledState oneEnabledVis
    ⟨"character_3", "focused", 1⟩
    (spawn_or_focus_next_character oneEnabledNet oneEnabledState oneEnabledVis).2.1
    (spawn_or_focus_next_character oneEnabledNet oneEnabledState oneEnabledVis).2.2
    rfl

end Oto
